import Mathlib

/-!
Shallow embedding of the SPC Alerts push dispatch edge function
(supabase/functions/send-push, the fixed concurrent variant with
cleanup-on-410, which the spec designates as authoritative) together
with the service worker URL helper makeAbsoluteUrl.

External effects are made explicit: the subscription store is a list of
rows, the per-subscription web-push send is an oracle from the row to an
outcome, and the database fetch error is an optional message. The handler
returns the HTTP response together with the observable effects (whether
the store was queried, how many network sends happened, the store after
the conditional deletes).
-/

/-- JS truthiness of an optional string field: absent, null and the empty
string are falsy. -/
def jsTruthy : Option String → Bool
  | none => false
  | some s => !(s == "")

/-- JS `a || d` on an optional string with a default. -/
def jsOr (o : Option String) (d : String) : String :=
  match o with
  | some s => if s == "" then d else s
  | none => d

/-- JS `s.startsWith(pre)`. -/
def jsStartsWith (s pre : String) : Bool :=
  List.isPrefixOf pre.data s.data

/-- The two encryption keys of a stored push subscription descriptor. -/
structure SubKeys where
  p256dh : Option String
  auth : Option String
deriving Repr, DecidableEq

/-- A push subscription descriptor: endpoint URL plus keys. Fields are
optional so that malformed rows can be represented. -/
structure SubDescriptor where
  endpoint : Option String
  keys : Option SubKeys
deriving Repr, DecidableEq

/-- A row of the push_subscriptions store, as selected by the edge
function: `select("id, user_id, subscription")`. -/
structure SubRow where
  id : String
  user_id : String
  subscription : SubDescriptor
deriving Repr, DecidableEq

/-- Shape validation in the send closure:
`if (!sub.endpoint || !sub.keys?.p256dh || !sub.keys?.auth) throw`. -/
def subscriptionValid (s : SubDescriptor) : Bool :=
  jsTruthy s.endpoint
    && jsTruthy (s.keys.bind SubKeys.p256dh)
    && jsTruthy (s.keys.bind SubKeys.auth)

/-- The parsed JSON request body fields destructured by the function.
The opaque `data` object is not modelled; no claim touches it. -/
structure RequestData where
  title : Option String
  body : Option String
  icon : Option String
  badge : Option String
  image : Option String
  url : Option String
  urgency : Option String
  user_ids : Option (List String)
deriving Repr, DecidableEq

/-- `const isTargeted = user_ids && Array.isArray(user_ids) && user_ids.length > 0`. -/
def isTargeted : Option (List String) → Bool
  | none => false
  | some l => !l.isEmpty

/-- The store query: `from("push_subscriptions").select(...)`, with
`.in('user_id', user_ids)` added exactly when isTargeted. The `.in`
filter keeps the rows whose user_id is a member of the list. -/
def fetchSubscriptions (store : List SubRow) (uids : Option (List String)) :
    List SubRow :=
  if isTargeted uids then
    store.filter (fun r => (uids.getD []).contains r.user_id)
  else
    store

/-- `title && body` validation: `if (!title || !body) return 400`. -/
def validTitleBody (rd : RequestData) : Bool :=
  jsTruthy rd.title && jsTruthy rd.body

/-- The notification payload built per dispatch (the JSON.stringify
argument). The Date.now() stamp is the `now` parameter; the mobile
constants (vibrate, silent, renotify) are fixed and not modelled. -/
structure NotificationPayload where
  title : String
  body : String
  icon : String
  badge : String
  image : Option String
  url : String
  tag : String
  requireInteraction : Bool
deriving Repr, DecidableEq

/-- Payload construction from the request fields and the request origin:
icon and badge and url fall back to origin-based defaults via `||`;
image, when truthy, is kept if it starts with "http" and is otherwise
prefixed with the origin; requireInteraction is `urgency === 'high'`
where urgency has destructuring default "normal". -/
def buildNotificationPayload (rd : RequestData) (origin : String) (now : Nat) :
    NotificationPayload :=
  { title := rd.title.getD ""
    body := rd.body.getD ""
    icon := jsOr rd.icon (origin ++ "/public/img/icon-192.png")
    badge := jsOr rd.badge (origin ++ "/public/img/badge-72.png")
    image :=
      match rd.image with
      | some s =>
          if s == "" then none
          else if jsStartsWith s "http" then some s
          else some (origin ++ s)
      | none => none
    url := jsOr rd.url (origin ++ "/public/html/index.html")
    tag := "spc-alert-" ++ toString now
    requireInteraction := (rd.urgency.getD "normal") == "high" }

/-- Outcome of one webpush.sendNotification call: either it resolves, or
it throws with a message and an optional HTTP status code
(`error.statusCode || error.status`). -/
inductive SendOutcome where
  | ok
  | err (msg : String) (statusCode : Option Nat)
deriving Repr, DecidableEq

/-- One entry of the errors array: `{ id, user_id, error, statusCode }`. -/
structure ErrEntry where
  id : String
  user_id : String
  error : String
  statusCode : Option Nat
deriving Repr, DecidableEq

/-- `statusCode === 410 || statusCode === 404`. -/
def isGoneStatus (sc : Option Nat) : Bool :=
  sc == some 410 || sc == some 404

/-- The observable result of one send closure for one subscription row. -/
structure ItemResult where
  id : String
  delivered : Bool
  error : Option ErrEntry
  deleteIssued : Bool
  networkSent : Bool
deriving Repr, DecidableEq

/-- The per-subscription closure, as a pure function of the row and the
send oracle: invalid shape throws before the network call; a send error
is caught, recorded, and triggers the delete exactly on status 410/404. -/
def processSubscription (outcome : SubRow → SendOutcome) (row : SubRow) :
    ItemResult :=
  if subscriptionValid row.subscription then
    match outcome row with
    | .ok => ⟨row.id, true, none, false, true⟩
    | .err msg sc =>
        ⟨row.id, false, some ⟨row.id, row.user_id, msg, sc⟩, isGoneStatus sc, true⟩
  else
    ⟨row.id, false,
      some ⟨row.id, row.user_id, "Invalid subscription structure", none⟩,
      false, false⟩

/-- The shared accumulation state of the fan-out: the delivered and failed
counters, the errors array, the ids handed to the conditional delete, and
the number of network sends. -/
structure FanoutState where
  delivered : Nat
  failed : Nat
  errors : List ErrEntry
  deletedIds : List String
  networkSends : Nat
deriving Repr, DecidableEq

/-- Counters and arrays start empty. -/
def initialFanoutState : FanoutState := ⟨0, 0, [], [], 0⟩

/-- One closure execution folded into the shared state, mirroring the
try/catch body: success increments delivered; a caught error increments
failed, appends the error entry, and appends the row id to the delete
list exactly when the status is 410 or 404; the shape check throws before
any network send. -/
def stepSubscription (outcome : SubRow → SendOutcome) (st : FanoutState)
    (row : SubRow) : FanoutState :=
  if subscriptionValid row.subscription then
    match outcome row with
    | .ok =>
        { st with delivered := st.delivered + 1
                  networkSends := st.networkSends + 1 }
    | .err msg sc =>
        { st with failed := st.failed + 1
                  errors := st.errors ++ [⟨row.id, row.user_id, msg, sc⟩]
                  deletedIds :=
                    if isGoneStatus sc then st.deletedIds ++ [row.id]
                    else st.deletedIds
                  networkSends := st.networkSends + 1 }
  else
    { st with failed := st.failed + 1
              errors := st.errors ++
                [⟨row.id, row.user_id, "Invalid subscription structure", none⟩] }

/-- `subscriptions.map(closure)` then `Promise.allSettled`: every closure
runs to completion and the state accumulates one contribution per row. -/
def runFanout (outcome : SubRow → SendOutcome) (subs : List SubRow) :
    FanoutState :=
  subs.foldl (stepSubscription outcome) initialFanoutState

/-- Aggregation of independent per-item results into a fan-out state. -/
def aggregateResults (rs : List ItemResult) : FanoutState :=
  { delivered := (rs.filter ItemResult.delivered).length
    failed := (rs.filter (fun r => !r.delivered)).length
    errors := rs.filterMap ItemResult.error
    deletedIds := (rs.filter ItemResult.deleteIssued).map ItemResult.id
    networkSends := (rs.filter ItemResult.networkSent).length }

/-- Effect on the store of the issued deletes:
`delete().eq("id", id)` removes every row carrying that id. -/
def applyDeletes (store : List SubRow) (ids : List String) : List SubRow :=
  store.filter (fun r => !(ids.contains r.id))

/-- The environment variables read at the top of the function. -/
structure PushEnv where
  vapidPublic : Option String
  vapidPrivate : Option String
  supabaseUrl : Option String
  supabaseKey : Option String
deriving Repr, DecidableEq

/-- `if (!vapidPublic || !vapidPrivate) return 500`. -/
def vapidConfigured (e : PushEnv) : Bool :=
  jsTruthy e.vapidPublic && jsTruthy e.vapidPrivate

/-- `if (!supabaseUrl || !supabaseKey) return 500`. -/
def supabaseConfigured (e : PushEnv) : Bool :=
  jsTruthy e.supabaseUrl && jsTruthy e.supabaseKey

/-- Both configuration checks pass. -/
def envConfigured (e : PushEnv) : Bool :=
  vapidConfigured e && supabaseConfigured e

/-- The request body as seen after `await req.json()`: either the parse
threw, or it produced the destructured fields. -/
inductive RequestBody where
  | malformed
  | parsed (rd : RequestData)
deriving Repr, DecidableEq

/-- The incoming HTTP request: method, origin header, body. -/
structure HttpRequest where
  method : String
  originHeader : Option String
  body : RequestBody
deriving Repr, DecidableEq

/-- The JSON response fields the claims talk about; a `none` field is
absent from the serialized body. -/
structure HttpResponse where
  status : Nat
  success : Option Bool := none
  delivered_to : Option Nat := none
  failed : Option Nat := none
  total_subscriptions : Option Nat := none
  notification_type : Option String := none
  targeted_users : Option (Option (List String)) := none
  message : Option String := none
  errors : Option (List ErrEntry) := none
  error : Option String := none
deriving Repr, DecidableEq

/-- The response plus the externally observable effects of handling it. -/
structure HandlerOutput where
  response : HttpResponse
  storeQueried : Bool
  networkSends : Nat
  storeAfter : List SubRow
deriving Repr, DecidableEq

/-- `req.headers.get('origin') || 'https://spc-alerts.vercel.app'`. -/
def defaultOrigin : String := "https://spc-alerts.vercel.app"

/-- The whole request handler of the edge function, in source order:
CORS preflight, method check, VAPID check, supabase config check, body
parse, title/body validation, store query (its error surfaces as 500),
zero-subscription early return, payload build, concurrent fan-out,
aggregated 200 response with the errors array omitted when empty. -/
def handleRequest (env : PushEnv) (req : HttpRequest) (store : List SubRow)
    (fetchError : Option String) (outcome : SubRow → SendOutcome) (now : Nat) :
    HandlerOutput :=
  if req.method == "OPTIONS" then
    ⟨{ status := 204 }, false, 0, store⟩
  else if !(req.method == "POST") then
    ⟨{ status := 405, error := some "Method not allowed" }, false, 0, store⟩
  else if !(vapidConfigured env) then
    ⟨{ status := 500, error := some "VAPID keys not configured in environment" },
      false, 0, store⟩
  else if !(supabaseConfigured env) then
    ⟨{ status := 500, error := some "Supabase configuration missing" },
      false, 0, store⟩
  else
    match req.body with
    | .malformed =>
        ⟨{ status := 400, error := some "Invalid JSON in request body" },
          false, 0, store⟩
    | .parsed rd =>
        if !(validTitleBody rd) then
          ⟨{ status := 400, error := some "title and body are required" },
            false, 0, store⟩
        else
          match fetchError with
          | some msg =>
              ⟨{ status := 500, error := some ("Database error: " ++ msg) },
                true, 0, store⟩
          | none =>
            let subs := fetchSubscriptions store rd.user_ids
            let ntype : String :=
              if isTargeted rd.user_ids then "targeted" else "broadcast"
            if subs.isEmpty then
              ⟨{ status := 200, success := some true, delivered_to := some 0,
                 failed := some 0, notification_type := some ntype,
                 targeted_users := some rd.user_ids,
                 message := some (if isTargeted rd.user_ids then
                     "No subscribers found for users: " ++
                       String.intercalate ", " (rd.user_ids.getD [])
                   else "No subscribers in the system") },
                true, 0, store⟩
            else
              let _payload :=
                buildNotificationPayload rd (jsOr req.originHeader defaultOrigin) now
              let fs := runFanout outcome subs
              ⟨{ status := 200, success := some true,
                 delivered_to := some fs.delivered,
                 failed := some fs.failed,
                 total_subscriptions := some subs.length,
                 notification_type := some ntype,
                 targeted_users := some rd.user_ids,
                 errors := if fs.errors.isEmpty then none else some fs.errors },
                true, fs.networkSends, applyDeletes store fs.deletedIds⟩

/-- The service worker helper that rewrites a URL to an absolute one using
the worker origin: null-propagating, keeps http(s) URLs, prefixes a
leading-slash path with the origin, otherwise inserts a slash. -/
def makeAbsoluteUrl (appOrigin : String) (url : Option String) : Option String :=
  match url with
  | none => none
  | some u =>
      if u == "" then none
      else if jsStartsWith u "http://" || jsStartsWith u "https://" then some u
      else if jsStartsWith u "/" then some (appOrigin ++ u)
      else some (appOrigin ++ "/" ++ u)

/-! Helper lemmas shared by the claim theorems. -/

/-- A boolean predicate partitions the length of a list. -/
theorem length_filter_partition {α : Type} (p : α → Bool) (l : List α) :
    (l.filter p).length + (l.filter (fun x => !(p x))).length = l.length := by
  induction l with
  | nil => rfl
  | cons x xs ih =>
    cases hx : p x <;> simp [List.filter_cons, hx] <;> omega

/-- Pointwise combination of two fan-out states. -/
def combineFanout (a b : FanoutState) : FanoutState :=
  ⟨a.delivered + b.delivered, a.failed + b.failed, a.errors ++ b.errors,
   a.deletedIds ++ b.deletedIds, a.networkSends + b.networkSends⟩

theorem combineFanout_assoc (a b c : FanoutState) :
    combineFanout (combineFanout a b) c = combineFanout a (combineFanout b c) := by
  simp [combineFanout, Nat.add_assoc, List.append_assoc]

theorem combineFanout_init (st : FanoutState) :
    combineFanout st initialFanoutState = st := by
  cases st
  simp [combineFanout, initialFanoutState]

theorem init_combineFanout (st : FanoutState) :
    combineFanout initialFanoutState st = st := by
  cases st
  simp [combineFanout, initialFanoutState]

/-- One fan-out step contributes exactly the independent result of its own
row, summarized as a singleton aggregation. -/
theorem step_eq_combine (outcome : SubRow → SendOutcome) (st : FanoutState)
    (row : SubRow) :
    stepSubscription outcome st row
      = combineFanout st (aggregateResults [processSubscription outcome row]) := by
  cases hv : subscriptionValid row.subscription
  · simp [stepSubscription, processSubscription, aggregateResults, combineFanout, hv]
  · cases ho : outcome row with
    | ok =>
        simp [stepSubscription, processSubscription, aggregateResults,
          combineFanout, hv, ho]
    | err msg sc =>
        cases hg : isGoneStatus sc <;>
          simp [stepSubscription, processSubscription, aggregateResults,
            combineFanout, hv, ho, hg]

theorem aggregate_cons (r : ItemResult) (rs : List ItemResult) :
    aggregateResults (r :: rs)
      = combineFanout (aggregateResults [r]) (aggregateResults rs) := by
  cases hd : r.delivered <;> cases hdel : r.deleteIssued <;>
    cases hn : r.networkSent <;> cases he : r.error <;>
      simp [aggregateResults, combineFanout, List.filter_cons,
        List.filterMap_cons, hd, hdel, hn, he] <;> omega

theorem foldl_step_eq (outcome : SubRow → SendOutcome) (subs : List SubRow)
    (st : FanoutState) :
    subs.foldl (stepSubscription outcome) st
      = combineFanout st (aggregateResults (subs.map (processSubscription outcome))) := by
  induction subs generalizing st with
  | nil => simp [combineFanout_init, aggregateResults, combineFanout, initialFanoutState]
  | cons x xs ih =>
    rw [List.foldl_cons, ih, step_eq_combine, combineFanout_assoc,
      List.map_cons, ← aggregate_cons]

/-- The sequential accumulation of the fan-out equals the aggregation of
the independent per-row results: each subscription contributes exactly
once and only through its own outcome. -/
theorem runFanout_eq_aggregate (outcome : SubRow → SendOutcome)
    (subs : List SubRow) :
    runFanout outcome subs
      = aggregateResults (subs.map (processSubscription outcome)) := by
  rw [runFanout, foldl_step_eq, init_combineFanout]

/-- Splitting the combined configuration check. -/
theorem envConfigured_split {e : PushEnv} (h : envConfigured e = true) :
    vapidConfigured e = true ∧ supabaseConfigured e = true := by
  simpa [envConfigured, Bool.and_eq_true] using h

/-- Under a POST with configured environment, a parsed body with valid
title and body, no fetch error and a non-empty resolved set, the handler
reaches the fan-out and returns the aggregated 200 response. -/
theorem handleRequest_dispatch
    (env : PushEnv) (req : HttpRequest) (rd : RequestData) (store : List SubRow)
    (outcome : SubRow → SendOutcome) (now : Nat)
    (hm : req.method = "POST") (hcfg : envConfigured env = true)
    (hb : req.body = RequestBody.parsed rd) (hv : validTitleBody rd = true)
    (hne : fetchSubscriptions store rd.user_ids ≠ []) :
    handleRequest env req store none outcome now =
      ⟨{ status := 200, success := some true,
         delivered_to :=
           some (runFanout outcome (fetchSubscriptions store rd.user_ids)).delivered,
         failed :=
           some (runFanout outcome (fetchSubscriptions store rd.user_ids)).failed,
         total_subscriptions := some (fetchSubscriptions store rd.user_ids).length,
         notification_type :=
           some (if isTargeted rd.user_ids then "targeted" else "broadcast"),
         targeted_users := some rd.user_ids,
         errors :=
           if (runFanout outcome (fetchSubscriptions store rd.user_ids)).errors.isEmpty
           then none
           else some (runFanout outcome (fetchSubscriptions store rd.user_ids)).errors },
        true,
        (runFanout outcome (fetchSubscriptions store rd.user_ids)).networkSends,
        applyDeletes store
          (runFanout outcome (fetchSubscriptions store rd.user_ids)).deletedIds⟩ := by
  obtain ⟨hvap, hsup⟩ := envConfigured_split hcfg
  have hne2 : (fetchSubscriptions store rd.user_ids).isEmpty = false := by
    cases h : fetchSubscriptions store rd.user_ids with
    | nil => exact absurd h hne
    | cons a t => rfl
  have hx1 : (("POST" : String) == "OPTIONS") = false := by decide
  have hx2 : (("POST" : String) == "POST") = true := by decide
  simp [handleRequest, hm, hb, hx1, hx2, hvap, hsup, hv, hne2]

/-! Concrete fixtures used by the witness theorems. -/

def demoKeys : SubKeys := ⟨some "BPkey", some "authsecret"⟩

def demoDescriptor : SubDescriptor :=
  ⟨some "https://push.example.com/ep1", some demoKeys⟩

def demoRowU1 : SubRow := ⟨"s1", "u1", demoDescriptor⟩

def demoRowU3 : SubRow := ⟨"s3", "u3", demoDescriptor⟩

def demoStore : List SubRow := [demoRowU1, demoRowU3]

def demoRequestData : RequestData :=
  ⟨some "Test", some "Hello", none, none, none, none, none, some ["u1", "u2"]⟩

def demoBroadcastData : RequestData :=
  ⟨some "Test", some "Hello", none, none, none, none, none, none⟩

def demoHttpRequest : HttpRequest := ⟨"POST", none, .parsed demoRequestData⟩

def demoEnv : PushEnv :=
  ⟨some "pubkey", some "privkey", some "https://db.example.com", some "svckey"⟩

def demoOutcomeOk : SubRow → SendOutcome := fun _ => .ok

def demoOutcomeGone : SubRow → SendOutcome :=
  fun r => if r.id == "s1" then .err "Gone" (some 410) else .ok

/-- C1: for every completed dispatch over a non-empty resolved
subscription set, the HTTP 200 response reports delivered_to, failed and
total_subscriptions with delivered_to + failed = total_subscriptions,
and each subscription settles exactly one of the two counters (it is
delivered exactly when no error entry is recorded for it). -/
theorem delivered_plus_failed_eq_total
    (env : PushEnv) (req : HttpRequest) (rd : RequestData) (store : List SubRow)
    (outcome : SubRow → SendOutcome) (now : Nat)
    (hm : req.method = "POST") (hcfg : envConfigured env = true)
    (hb : req.body = RequestBody.parsed rd) (hv : validTitleBody rd = true)
    (hne : fetchSubscriptions store rd.user_ids ≠ []) :
    ((handleRequest env req store none outcome now).response.status = 200
      ∧ (handleRequest env req store none outcome now).response.delivered_to
          = some (runFanout outcome (fetchSubscriptions store rd.user_ids)).delivered
      ∧ (handleRequest env req store none outcome now).response.failed
          = some (runFanout outcome (fetchSubscriptions store rd.user_ids)).failed
      ∧ (handleRequest env req store none outcome now).response.total_subscriptions
          = some (fetchSubscriptions store rd.user_ids).length)
    ∧ (runFanout outcome (fetchSubscriptions store rd.user_ids)).delivered
        + (runFanout outcome (fetchSubscriptions store rd.user_ids)).failed
        = (fetchSubscriptions store rd.user_ids).length
    ∧ (∀ r : SubRow, (processSubscription outcome r).delivered = true
        ↔ (processSubscription outcome r).error = none) := by
  rw [handleRequest_dispatch env req rd store outcome now hm hcfg hb hv hne]
  refine ⟨⟨rfl, rfl, rfl, rfl⟩, ?_, ?_⟩
  · rw [runFanout_eq_aggregate]
    have h := length_filter_partition ItemResult.delivered
      ((fetchSubscriptions store rd.user_ids).map (processSubscription outcome))
    simpa [aggregateResults] using h
  · intro r
    unfold processSubscription
    cases hv2 : subscriptionValid r.subscription
    · simp
    · cases outcome r <;> simp

/-- Witness for delivered_plus_failed_eq_total at a concrete targeted
dispatch with one expired subscription. -/
theorem delivered_plus_failed_eq_total_witness :
    (handleRequest demoEnv demoHttpRequest demoStore none demoOutcomeGone 0).response.status
        = 200
    ∧ (runFanout demoOutcomeGone (fetchSubscriptions demoStore (some ["u1", "u2"]))).delivered
        + (runFanout demoOutcomeGone (fetchSubscriptions demoStore (some ["u1", "u2"]))).failed
        = (fetchSubscriptions demoStore (some ["u1", "u2"])).length := by
  have h := delivered_plus_failed_eq_total demoEnv demoHttpRequest demoRequestData
    demoStore demoOutcomeGone 0 rfl (by decide) rfl (by decide) (by decide)
  exact ⟨h.1.1, h.2.1⟩

/-- C2: the targeting resolver selects every stored subscription when
user_ids is omitted or is the empty array, and for a non-empty user_ids
it selects exactly the stored rows whose user_id is a member of that
array and no others. -/
theorem targeting_resolver_selects_exactly
    (store : List SubRow) (uids : Option (List String)) :
    (isTargeted uids = false ↔ uids = none ∨ uids = some [])
    ∧ (isTargeted uids = false → fetchSubscriptions store uids = store)
    ∧ (∀ l, uids = some l → l ≠ [] →
        ∀ r, r ∈ fetchSubscriptions store uids ↔ r ∈ store ∧ r.user_id ∈ l) := by
  refine ⟨?_, ?_, ?_⟩
  · cases uids with
    | none => simp [isTargeted]
    | some l => cases l <;> simp [isTargeted]
  · intro h
    simp [fetchSubscriptions, h]
  · intro l hl hne r
    subst hl
    have ht : isTargeted (some l) = true := by
      cases l with
      | nil => exact absurd rfl hne
      | cons a t => simp [isTargeted]
    simp [fetchSubscriptions, ht, List.mem_filter, List.contains, List.elem_eq_mem]

/-- Witness for targeting_resolver_selects_exactly: broadcast returns the
whole demo store and a targeted query is characterized by membership. -/
theorem targeting_resolver_selects_exactly_witness :
    fetchSubscriptions demoStore none = demoStore
    ∧ (demoRowU1 ∈ fetchSubscriptions demoStore (some ["u1", "u2"])
        ↔ demoRowU1 ∈ demoStore ∧ demoRowU1.user_id ∈ ["u1", "u2"]) := by
  refine ⟨(targeting_resolver_selects_exactly demoStore none).2.1 rfl, ?_⟩
  exact (targeting_resolver_selects_exactly demoStore (some ["u1", "u2"])).2.2
    ["u1", "u2"] rfl (by decide) demoRowU1

/-- The per-item result keeps the id of its row. -/
theorem processSubscription_id (outcome : SubRow → SendOutcome) (r : SubRow) :
    (processSubscription outcome r).id = r.id := by
  cases hv : subscriptionValid r.subscription
  · simp [processSubscription, hv]
  · cases ho : outcome r <;> simp [processSubscription, hv, ho]

/-- An id is handed to the delete exactly when some resolved row with that
id had its delete issued. -/
theorem mem_deletedIds_iff (outcome : SubRow → SendOutcome) (subs : List SubRow)
    (s : String) :
    s ∈ (runFanout outcome subs).deletedIds
      ↔ ∃ r ∈ subs, (processSubscription outcome r).deleteIssued = true
          ∧ r.id = s := by
  rw [runFanout_eq_aggregate]
  constructor
  · intro h
    simp only [aggregateResults, List.mem_map] at h
    obtain ⟨ir, hir, hid⟩ := h
    rw [List.mem_filter] at hir
    obtain ⟨hmem, hdel⟩ := hir
    rw [List.mem_map] at hmem
    obtain ⟨r, hr, hfr⟩ := hmem
    refine ⟨r, hr, by rw [hfr]; exact hdel, ?_⟩
    rw [← hid, ← hfr, processSubscription_id]
  · intro h
    obtain ⟨r, hr, hdel, hid⟩ := h
    simp only [aggregateResults, List.mem_map]
    refine ⟨processSubscription outcome r, ?_, by rw [processSubscription_id]; exact hid⟩
    rw [List.mem_filter]
    exact ⟨List.mem_map_of_mem _ hr, hdel⟩

/-- Every resolved subscription is a row of the store. -/
theorem fetchSubscriptions_subset (store : List SubRow)
    (uids : Option (List String)) :
    ∀ r ∈ fetchSubscriptions store uids, r ∈ store := by
  intro r hr
  unfold fetchSubscriptions at hr
  split at hr
  · exact List.mem_of_mem_filter hr
  · exact hr

/-- C3: every subscription of the resolved set receives exactly one
delivery attempt whose result depends only on its own outcome (the
accumulated fan-out equals the aggregation of independent per-row
results); a per-subscription error is recovered locally, counted as
failed and recorded in the errors list with the row id and user id, and
the summary response is still HTTP 200 whatever the outcomes. -/
theorem fanout_partial_failure_isolation
    (env : PushEnv) (req : HttpRequest) (rd : RequestData) (store : List SubRow)
    (outcome : SubRow → SendOutcome) (now : Nat)
    (hm : req.method = "POST") (hcfg : envConfigured env = true)
    (hb : req.body = RequestBody.parsed rd) (hv : validTitleBody rd = true)
    (hne : fetchSubscriptions store rd.user_ids ≠ []) :
    runFanout outcome (fetchSubscriptions store rd.user_ids)
      = aggregateResults
          ((fetchSubscriptions store rd.user_ids).map (processSubscription outcome))
    ∧ (∀ o2 : SubRow → SendOutcome, ∀ r : SubRow, outcome r = o2 r →
        processSubscription outcome r = processSubscription o2 r)
    ∧ (∀ r : SubRow, ∀ msg : String, ∀ sc : Option Nat,
        subscriptionValid r.subscription = true →
          outcome r = SendOutcome.err msg sc →
            (processSubscription outcome r).delivered = false
            ∧ (processSubscription outcome r).error
                = some ⟨r.id, r.user_id, msg, sc⟩)
    ∧ (handleRequest env req store none outcome now).response.status = 200 := by
  refine ⟨runFanout_eq_aggregate outcome _, ?_, ?_, ?_⟩
  · intro o2 r h
    simp [processSubscription, h]
  · intro r msg sc hval ho
    simp [processSubscription, hval, ho]
  · rw [handleRequest_dispatch env req rd store outcome now hm hcfg hb hv hne]

/-- Witness for fanout_partial_failure_isolation: the expired demo
subscription fails locally with its error recorded and the response is
still a 200. -/
theorem fanout_partial_failure_isolation_witness :
    (processSubscription demoOutcomeGone demoRowU1).delivered = false
    ∧ (processSubscription demoOutcomeGone demoRowU1).error
        = some ⟨"s1", "u1", "Gone", some 410⟩
    ∧ (handleRequest demoEnv demoHttpRequest demoStore none demoOutcomeGone 0).response.status
        = 200 := by
  have h := fanout_partial_failure_isolation demoEnv demoHttpRequest demoRequestData
    demoStore demoOutcomeGone 0 rfl (by decide) rfl (by decide) (by decide)
  have h2 := h.2.2.1 demoRowU1 "Gone" (some 410) (by decide) (by decide)
  exact ⟨h2.1, h2.2, h.2.2.2⟩

/-- C4: a resolved subscription whose delivery fails with status 410 or
404 has its row deleted from the store by the end of the dispatch; a
store row that was not resolved, or whose attempt did not end in a
410/404 failure, is still in the store afterwards; and the delete is
issued exactly on a 410/404 failure of a well-formed subscription. -/
theorem gone_subscription_cleanup
    (env : PushEnv) (req : HttpRequest) (rd : RequestData) (store : List SubRow)
    (outcome : SubRow → SendOutcome) (now : Nat)
    (hm : req.method = "POST") (hcfg : envConfigured env = true)
    (hb : req.body = RequestBody.parsed rd) (hv : validTitleBody rd = true)
    (hne : fetchSubscriptions store rd.user_ids ≠ [])
    (hnodup : (store.map SubRow.id).Nodup) :
    (∀ r ∈ fetchSubscriptions store rd.user_ids,
        (processSubscription outcome r).deleteIssued = true →
          r ∉ (handleRequest env req store none outcome now).storeAfter)
    ∧ (∀ r ∈ store, r ∉ fetchSubscriptions store rd.user_ids →
        r ∈ (handleRequest env req store none outcome now).storeAfter)
    ∧ (∀ r ∈ fetchSubscriptions store rd.user_ids,
        (processSubscription outcome r).deleteIssued = false →
          r ∈ (handleRequest env req store none outcome now).storeAfter)
    ∧ (∀ r : SubRow, (processSubscription outcome r).deleteIssued = true
        ↔ subscriptionValid r.subscription = true
          ∧ ∃ msg sc, outcome r = SendOutcome.err msg sc
              ∧ isGoneStatus sc = true) := by
  rw [handleRequest_dispatch env req rd store outcome now hm hcfg hb hv hne]
  refine ⟨?_, ?_, ?_, ?_⟩
  · intro r hr hdel hmem
    rw [applyDeletes, List.mem_filter] at hmem
    have hid : r.id ∈ (runFanout outcome (fetchSubscriptions store rd.user_ids)).deletedIds :=
      (mem_deletedIds_iff outcome _ r.id).mpr ⟨r, hr, hdel, rfl⟩
    simp [List.contains, List.elem_eq_mem] at hmem
    exact hmem.2 hid
  · intro r hr hnot
    rw [applyDeletes, List.mem_filter]
    refine ⟨hr, ?_⟩
    simp [List.contains, List.elem_eq_mem]
    intro hid
    obtain ⟨r2, hr2, hdel2, hid2⟩ := (mem_deletedIds_iff outcome _ r.id).mp hid
    have heq : r2 = r := List.inj_on_of_nodup_map hnodup
      (fetchSubscriptions_subset store rd.user_ids r2 hr2) hr hid2
    exact hnot (heq ▸ hr2)
  · intro r hr hdel
    rw [applyDeletes, List.mem_filter]
    refine ⟨fetchSubscriptions_subset store rd.user_ids r hr, ?_⟩
    simp [List.contains, List.elem_eq_mem]
    intro hid
    obtain ⟨r2, hr2, hdel2, hid2⟩ := (mem_deletedIds_iff outcome _ r.id).mp hid
    have heq : r2 = r := List.inj_on_of_nodup_map hnodup
      (fetchSubscriptions_subset store rd.user_ids r2 hr2)
      (fetchSubscriptions_subset store rd.user_ids r hr) hid2
    rw [heq, hdel] at hdel2
    simp at hdel2
  · intro r
    constructor
    · intro h
      cases hv2 : subscriptionValid r.subscription
      · simp [processSubscription, hv2] at h
      · refine ⟨rfl, ?_⟩
        cases ho : outcome r with
        | ok => simp [processSubscription, hv2, ho] at h
        | err msg sc =>
            refine ⟨msg, sc, rfl, ?_⟩
            simpa [processSubscription, hv2, ho] using h
    · rintro ⟨hv2, msg, sc, ho, hg⟩
      simp [processSubscription, hv2, ho, hg]

/-- Witness for gone_subscription_cleanup: the 410 subscription is gone
from the demo store after dispatch and the untargeted row survives. -/
theorem gone_subscription_cleanup_witness :
    demoRowU1 ∉ (handleRequest demoEnv demoHttpRequest demoStore none demoOutcomeGone 0).storeAfter
    ∧ demoRowU3 ∈ (handleRequest demoEnv demoHttpRequest demoStore none demoOutcomeGone 0).storeAfter := by
  have h := gone_subscription_cleanup demoEnv demoHttpRequest demoRequestData
    demoStore demoOutcomeGone 0 rfl (by decide) rfl (by decide) (by decide) (by decide)
  exact ⟨h.1 demoRowU1 (by decide) (by decide),
    h.2.1 demoRowU3 (by decide) (by decide)⟩

/-- C5: a parsed dispatch request lacking a truthy title or a truthy body
is refused with HTTP 400 before any store query and before any network
send, and the store is left untouched. -/
theorem validation_error_precedes_effects
    (env : PushEnv) (req : HttpRequest) (rd : RequestData) (store : List SubRow)
    (fetchError : Option String) (outcome : SubRow → SendOutcome) (now : Nat)
    (hm : req.method = "POST") (hcfg : envConfigured env = true)
    (hb : req.body = RequestBody.parsed rd)
    (hv : jsTruthy rd.title = false ∨ jsTruthy rd.body = false) :
    handleRequest env req store fetchError outcome now =
      ⟨{ status := 400, error := some "title and body are required" },
        false, 0, store⟩ := by
  obtain ⟨hvap, hsup⟩ := envConfigured_split hcfg
  have hvb : validTitleBody rd = false := by
    rcases hv with h | h <;> simp [validTitleBody, h]
  have hx1 : (("POST" : String) == "OPTIONS") = false := by decide
  have hx2 : (("POST" : String) == "POST") = true := by decide
  simp [handleRequest, hm, hb, hx1, hx2, hvap, hsup, hvb]

def demoNoTitleData : RequestData :=
  ⟨none, some "Hello", none, none, none, none, none, none⟩

/-- Witness for validation_error_precedes_effects on a request with no
title at all. -/
theorem validation_error_precedes_effects_witness :
    handleRequest demoEnv ⟨"POST", none, .parsed demoNoTitleData⟩ demoStore none
        demoOutcomeOk 0 =
      ⟨{ status := 400, error := some "title and body are required" },
        false, 0, demoStore⟩ :=
  validation_error_precedes_effects demoEnv ⟨"POST", none, .parsed demoNoTitleData⟩
    demoNoTitleData demoStore none demoOutcomeOk 0 rfl (by decide) rfl (Or.inl rfl)

/-- C6: a POST whose body is not parsable as JSON is answered with HTTP
400 and not 500, the same status class as the missing title/body
validation error, before any store query or network send. -/
theorem malformed_json_returns_400
    (env : PushEnv) (req : HttpRequest) (store : List SubRow)
    (fetchError : Option String) (outcome : SubRow → SendOutcome) (now : Nat)
    (hm : req.method = "POST") (hcfg : envConfigured env = true)
    (hb : req.body = RequestBody.malformed) :
    handleRequest env req store fetchError outcome now =
      ⟨{ status := 400, error := some "Invalid JSON in request body" },
        false, 0, store⟩
    ∧ (handleRequest env req store fetchError outcome now).response.status ≠ 500 := by
  obtain ⟨hvap, hsup⟩ := envConfigured_split hcfg
  have hx1 : (("POST" : String) == "OPTIONS") = false := by decide
  have hx2 : (("POST" : String) == "POST") = true := by decide
  have heq : handleRequest env req store fetchError outcome now =
      ⟨{ status := 400, error := some "Invalid JSON in request body" },
        false, 0, store⟩ := by
    simp [handleRequest, hm, hb, hx1, hx2, hvap, hsup]
  refine ⟨heq, ?_⟩
  rw [heq]
  show (400 : Nat) ≠ 500
  decide

/-- Witness for malformed_json_returns_400 on a concrete unparsable
body. -/
theorem malformed_json_returns_400_witness :
    handleRequest demoEnv ⟨"POST", none, RequestBody.malformed⟩ demoStore none
        demoOutcomeOk 0 =
      ⟨{ status := 400, error := some "Invalid JSON in request body" },
        false, 0, demoStore⟩ :=
  (malformed_json_returns_400 demoEnv ⟨"POST", none, RequestBody.malformed⟩
    demoStore none demoOutcomeOk 0 rfl (by decide) rfl).1

/-- C7: a dispatch request that resolves zero subscriptions is answered
with HTTP 200, success true, delivered_to 0 and failed 0, no network
send happens, and the store is untouched. -/
theorem zero_subscriptions_reports_success
    (env : PushEnv) (req : HttpRequest) (rd : RequestData) (store : List SubRow)
    (outcome : SubRow → SendOutcome) (now : Nat)
    (hm : req.method = "POST") (hcfg : envConfigured env = true)
    (hb : req.body = RequestBody.parsed rd) (hv : validTitleBody rd = true)
    (hempty : fetchSubscriptions store rd.user_ids = []) :
    (handleRequest env req store none outcome now).response.status = 200
    ∧ (handleRequest env req store none outcome now).response.success = some true
    ∧ (handleRequest env req store none outcome now).response.delivered_to = some 0
    ∧ (handleRequest env req store none outcome now).response.failed = some 0
    ∧ (handleRequest env req store none outcome now).networkSends = 0
    ∧ (handleRequest env req store none outcome now).storeAfter = store := by
  obtain ⟨hvap, hsup⟩ := envConfigured_split hcfg
  have hemp2 : (fetchSubscriptions store rd.user_ids).isEmpty = true := by
    rw [hempty]
    rfl
  have hx1 : (("POST" : String) == "OPTIONS") = false := by decide
  have hx2 : (("POST" : String) == "POST") = true := by decide
  simp [handleRequest, hm, hb, hx1, hx2, hvap, hsup, hv, hemp2]

def demoUnknownUserData : RequestData :=
  ⟨some "Test", some "Hello", none, none, none, none, none, some ["u9"]⟩

/-- Witness for zero_subscriptions_reports_success: targeting a user with
no stored subscription. -/
theorem zero_subscriptions_reports_success_witness :
    (handleRequest demoEnv ⟨"POST", none, .parsed demoUnknownUserData⟩ demoStore none
        demoOutcomeOk 0).response.status = 200
    ∧ (handleRequest demoEnv ⟨"POST", none, .parsed demoUnknownUserData⟩ demoStore none
        demoOutcomeOk 0).response.delivered_to = some 0
    ∧ (handleRequest demoEnv ⟨"POST", none, .parsed demoUnknownUserData⟩ demoStore none
        demoOutcomeOk 0).networkSends = 0 := by
  have h := zero_subscriptions_reports_success demoEnv
    ⟨"POST", none, .parsed demoUnknownUserData⟩ demoUnknownUserData demoStore
    demoOutcomeOk 0 rfl (by decide) rfl (by decide) (by decide)
  exact ⟨h.1, h.2.2.1, h.2.2.2.2.1⟩

/-- C8: the notification_type of the response is "broadcast" exactly when
the dispatch is not targeted (user_ids omitted or the empty array, in
which case the resolver selects every stored subscription) and
"targeted" exactly when user_ids is an explicit non-empty list (in which
case it selects exactly the subscriptions of that list); in particular a
request with user_ids = [] is reported as "broadcast". -/
theorem broadcast_vs_targeted_reporting
    (env : PushEnv) (req : HttpRequest) (rd : RequestData) (store : List SubRow)
    (outcome : SubRow → SendOutcome) (now : Nat)
    (hm : req.method = "POST") (hcfg : envConfigured env = true)
    (hb : req.body = RequestBody.parsed rd) (hv : validTitleBody rd = true) :
    ((handleRequest env req store none outcome now).response.notification_type
        = some "broadcast" ↔ isTargeted rd.user_ids = false)
    ∧ ((handleRequest env req store none outcome now).response.notification_type
        = some "targeted" ↔ isTargeted rd.user_ids = true)
    ∧ (isTargeted rd.user_ids = false ↔ rd.user_ids = none ∨ rd.user_ids = some [])
    ∧ (isTargeted rd.user_ids = false → fetchSubscriptions store rd.user_ids = store)
    ∧ (∀ l, rd.user_ids = some l → l ≠ [] → ∀ r,
        r ∈ fetchSubscriptions store rd.user_ids ↔ r ∈ store ∧ r.user_id ∈ l) := by
  obtain ⟨hvap, hsup⟩ := envConfigured_split hcfg
  have hx1 : (("POST" : String) == "OPTIONS") = false := by decide
  have hx2 : (("POST" : String) == "POST") = true := by decide
  have hs : ("targeted" : String) ≠ "broadcast" := by decide
  have hnt : (handleRequest env req store none outcome now).response.notification_type
      = some (if isTargeted rd.user_ids then "targeted" else "broadcast") := by
    cases hemp : (fetchSubscriptions store rd.user_ids).isEmpty
    · simp [handleRequest, hm, hb, hx1, hx2, hvap, hsup, hv, hemp]
    · simp [handleRequest, hm, hb, hx1, hx2, hvap, hsup, hv, hemp]
  refine ⟨?_, ?_, ?_, ?_, ?_⟩
  · rw [hnt]
    cases ht : isTargeted rd.user_ids <;> simp [hs]
  · rw [hnt]
    cases ht : isTargeted rd.user_ids <;> simp [hs]
  · cases h : rd.user_ids with
    | none => simp [isTargeted]
    | some l => cases l <;> simp [isTargeted]
  · intro h
    simp [fetchSubscriptions, h]
  · intro l hl hne r
    have ht : isTargeted (some l) = true := by
      cases l with
      | nil => exact absurd rfl hne
      | cons a t => simp [isTargeted]
    simp [fetchSubscriptions, hl, ht, List.mem_filter, List.contains,
      List.elem_eq_mem]

def demoEmptyIdsData : RequestData :=
  ⟨some "Test", some "Hello", none, none, none, none, none, some []⟩

/-- Witness for broadcast_vs_targeted_reporting: user_ids = [] is
reported as a broadcast. -/
theorem broadcast_vs_targeted_reporting_witness :
    (handleRequest demoEnv ⟨"POST", none, .parsed demoEmptyIdsData⟩ demoStore none
        demoOutcomeOk 0).response.notification_type = some "broadcast" := by
  have h := broadcast_vs_targeted_reporting demoEnv
    ⟨"POST", none, .parsed demoEmptyIdsData⟩ demoEmptyIdsData demoStore
    demoOutcomeOk 0 rfl (by decide) rfl (by decide)
  exact h.1.mpr rfl

/-- C10: a present-but-empty title or body is rejected with HTTP 400 and
produces the exact same output as the request with the field absent; the
validation accepts a request exactly when both title and body are
non-empty strings (a truthiness check, not a presence check). -/
theorem empty_title_body_rejected
    (env : PushEnv) (req : HttpRequest) (rd : RequestData) (store : List SubRow)
    (fetchError : Option String) (outcome : SubRow → SendOutcome) (now : Nat)
    (hm : req.method = "POST") (hcfg : envConfigured env = true)
    (hb : req.body = RequestBody.parsed rd)
    (he : rd.title = some "" ∨ rd.body = some "") :
    handleRequest env req store fetchError outcome now =
      ⟨{ status := 400, error := some "title and body are required" },
        false, 0, store⟩
    ∧ handleRequest env req store fetchError outcome now
        = handleRequest env
            ⟨req.method, req.originHeader,
              RequestBody.parsed { rd with title := none, body := none }⟩
            store fetchError outcome now
    ∧ (∀ rd2 : RequestData, validTitleBody rd2 = true
        ↔ ((∃ s, rd2.title = some s ∧ s ≠ "")
            ∧ (∃ s, rd2.body = some s ∧ s ≠ ""))) := by
  obtain ⟨hvap, hsup⟩ := envConfigured_split hcfg
  have hx1 : (("POST" : String) == "OPTIONS") = false := by decide
  have hx2 : (("POST" : String) == "POST") = true := by decide
  have hvb : validTitleBody rd = false := by
    rcases he with h | h <;> simp [validTitleBody, jsTruthy, h]
  have heq : handleRequest env req store fetchError outcome now =
      ⟨{ status := 400, error := some "title and body are required" },
        false, 0, store⟩ := by
    simp [handleRequest, hm, hb, hx1, hx2, hvap, hsup, hvb]
  have heq2 : handleRequest env
      ⟨req.method, req.originHeader,
        RequestBody.parsed { rd with title := none, body := none }⟩
      store fetchError outcome now =
      ⟨{ status := 400, error := some "title and body are required" },
        false, 0, store⟩ := by
    simp [handleRequest, hm, hx1, hx2, hvap, hsup, validTitleBody, jsTruthy]
  refine ⟨heq, by rw [heq, heq2], ?_⟩
  intro rd2
  cases ht : rd2.title with
  | none => simp [validTitleBody, jsTruthy, ht]
  | some s =>
    cases hbo : rd2.body with
    | none => simp [validTitleBody, jsTruthy, ht, hbo]
    | some s2 => simp [validTitleBody, jsTruthy, ht, hbo]

def demoEmptyTitleData : RequestData :=
  ⟨some "", some "Hello", none, none, none, none, none, none⟩

/-- Witness for empty_title_body_rejected at a request whose title is the
empty string. -/
theorem empty_title_body_rejected_witness :
    handleRequest demoEnv ⟨"POST", none, .parsed demoEmptyTitleData⟩ demoStore none
        demoOutcomeOk 0 =
      ⟨{ status := 400, error := some "title and body are required" },
        false, 0, demoStore⟩ :=
  (empty_title_body_rejected demoEnv ⟨"POST", none, .parsed demoEmptyTitleData⟩
    demoEmptyTitleData demoStore none demoOutcomeOk 0 rfl (by decide) rfl
    (Or.inl rfl)).1

def c9RequestData : RequestData :=
  ⟨some "Test", some "Hello", some "/public/img/custom.png", none,
    some "/public/img/photo.jpg", some "/public/html/map.html", none, none⟩

/-- C9 counterexample: a request carrying a relative icon path and a
relative url path has both passed through the payload builder unchanged,
still relative: the builder does not rewrite a supplied icon or url to an
absolute URL with the request origin. -/
theorem relative_url_rewrite_counterexample :
    (buildNotificationPayload c9RequestData defaultOrigin 0).icon
        = "/public/img/custom.png"
    ∧ jsStartsWith (buildNotificationPayload c9RequestData defaultOrigin 0).icon
        "http" = false
    ∧ (buildNotificationPayload c9RequestData defaultOrigin 0).url
        = "/public/html/map.html"
    ∧ jsStartsWith (buildNotificationPayload c9RequestData defaultOrigin 0).url
        "http" = false := by
  refine ⟨rfl, ?_, rfl, ?_⟩ <;> decide

/-- C9 amended: the payload builder rewrites only the image field with
the request origin: a truthy relative image is prefixed with the origin
and an image starting with http is kept; a caller-supplied truthy icon
or url is passed through unchanged whether relative or not, the origin
entering them only through the defaults taken when the field is absent.
On-device, the service worker helper makeAbsoluteUrl is what turns a
remaining relative path into an absolute URL, using the worker origin. -/
theorem relative_url_rewrite_amended
    (rd : RequestData) (origin : String) (now : Nat) :
    (∀ s, rd.image = some s → s ≠ "" → jsStartsWith s "http" = false →
        (buildNotificationPayload rd origin now).image = some (origin ++ s))
    ∧ (∀ s, rd.image = some s → s ≠ "" → jsStartsWith s "http" = true →
        (buildNotificationPayload rd origin now).image = some s)
    ∧ (∀ s, rd.icon = some s → s ≠ "" →
        (buildNotificationPayload rd origin now).icon = s)
    ∧ (∀ s, rd.url = some s → s ≠ "" →
        (buildNotificationPayload rd origin now).url = s)
    ∧ (rd.icon = none →
        (buildNotificationPayload rd origin now).icon
          = origin ++ "/public/img/icon-192.png")
    ∧ (rd.url = none →
        (buildNotificationPayload rd origin now).url
          = origin ++ "/public/html/index.html")
    ∧ (∀ u, u ≠ "" → jsStartsWith u "http://" = false →
        jsStartsWith u "https://" = false → jsStartsWith u "/" = true →
          makeAbsoluteUrl origin (some u) = some (origin ++ u)) := by
  refine ⟨?_, ?_, ?_, ?_, ?_, ?_, ?_⟩
  · intro s h hne hrel
    have hbe : (s == "") = false := beq_eq_false_iff_ne.mpr hne
    simp [buildNotificationPayload, h, hbe, hrel]
  · intro s h hne habs
    have hbe : (s == "") = false := beq_eq_false_iff_ne.mpr hne
    simp [buildNotificationPayload, h, hbe, habs]
  · intro s h hne
    have hbe : (s == "") = false := beq_eq_false_iff_ne.mpr hne
    simp [buildNotificationPayload, jsOr, h, hbe]
  · intro s h hne
    have hbe : (s == "") = false := beq_eq_false_iff_ne.mpr hne
    simp [buildNotificationPayload, jsOr, h, hbe]
  · intro h
    simp [buildNotificationPayload, jsOr, h]
  · intro h
    simp [buildNotificationPayload, jsOr, h]
  · intro u hne h1 h2 h3
    have hbe : (u == "") = false := beq_eq_false_iff_ne.mpr hne
    simp [makeAbsoluteUrl, hbe, h1, h2, h3]

/-- Witness for relative_url_rewrite_amended: the relative demo image is
rewritten with the origin, the relative demo icon is passed through, and
the worker helper makes the icon absolute on-device. -/
theorem relative_url_rewrite_amended_witness :
    (buildNotificationPayload c9RequestData defaultOrigin 0).image
        = some (defaultOrigin ++ "/public/img/photo.jpg")
    ∧ (buildNotificationPayload c9RequestData defaultOrigin 0).icon
        = "/public/img/custom.png"
    ∧ makeAbsoluteUrl defaultOrigin (some "/public/img/custom.png")
        = some (defaultOrigin ++ "/public/img/custom.png") := by
  have h := relative_url_rewrite_amended c9RequestData defaultOrigin 0
  exact ⟨h.1 "/public/img/photo.jpg" rfl (by decide) (by decide),
    h.2.2.1 "/public/img/custom.png" rfl (by decide),
    h.2.2.2.2.2.2 "/public/img/custom.png" (by decide) (by decide) (by decide)
      (by decide)⟩
